import Mathlib

/-!
Shallow embedding of the `wanifuchi/ocr-app` frontend:
* `src/frontend/src/app/api/ocr/route.ts` — the proxy route handler `POST`
  (validation, forwarding to the backend, response normalisation) and the
  surrounding error handling;
* `src/frontend/src/app/page.tsx` — the upload page's state and its
  handlers `onDrop`, `processOCR`, `downloadResult`, `resetAll`.

JavaScript objects arriving from `JSON.parse` are embedded as association
lists of string keys and `JsonValue`s; JavaScript truthiness (used by the
`||` defaulting in the route) is made explicit in `truthy`.  The browser
and the network are parameters: the backend's behaviour is a `BackendSim`
value handed to `POST`, the `FileReader` data-URL conversion is a function
argument of `onDrop`, and the outcome of the page's `fetch` is a
`FetchOutcome` value handed to `processOCR`.
-/

set_option autoImplicit false

namespace OcrApp

/-- A JSON value as produced by `JSON.parse` / `response.json()`.
A number is embedded as the exact scaled decimal `m × 10^(-e)` that its
JSON literal denotes (`0.87` is `jnum 87 2`); none of the modelled code
performs arithmetic on numbers, only passes them through and tests
truthiness. -/
inductive JsonValue where
  | jnull
  | jbool (b : Bool)
  | jnum (m : Int) (e : Nat)
  | jstr (s : String)
  | jarr (elems : List JsonValue)
  | jobj (fields : List (String × JsonValue))
deriving Repr

/-- A JavaScript object: association list of fields, keys unique. -/
abbrev JsObject := List (String × JsonValue)

/-- JavaScript truthiness of a JSON value (`0`, `""`, `false`, `null` are
falsy; arrays and objects are always truthy). -/
def truthy : JsonValue → Bool
  | .jnull => false
  | .jbool b => b
  | .jnum m _ => if m = 0 then false else true
  | .jstr s => if s = "" then false else true
  | .jarr _ => true
  | .jobj _ => true

/-- Property access `o.k` on a parsed JSON object: `none` plays the role
of JavaScript `undefined` (key absent). -/
def getField (o : JsObject) (k : String) : Option JsonValue :=
  match o with
  | [] => none
  | (k2, v) :: rest => if k2 = k then some v else getField rest k

/-- Drops trailing `'0'` characters (used to render `m × 10^(-e)` the way
JavaScript renders the number, without trailing fraction zeros). -/
def stripTrailingZeros (s : String) : String :=
  String.mk ((s.data.reverse.dropWhile (fun c => c == '0')).reverse)

/-- Decimal rendering of `m × 10^(-e)`, as JavaScript renders a
finite-decimal number (`String(0.87) = "0.87"`). -/
def decimalString (m : Int) (e : Nat) : String :=
  let sign := if m < 0 then "-" else ""
  let a := m.natAbs
  if e = 0 then sign ++ toString a
  else
    let ip := a / 10 ^ e
    let fp := a % 10 ^ e
    if fp = 0 then sign ++ toString ip
    else sign ++ toString ip ++ "." ++ stripTrailingZeros ((toString (fp + 10 ^ e)).drop 1)

/-- JavaScript `String.prototype.startsWith`, embedded over the string's
character list (`s.startsWith(pre)` is true iff `pre` is a prefix of `s`). -/
def strStartsWith (s pre : String) : Bool := pre.data.isPrefixOf s.data

mutual

/-- JavaScript `String(v)` conversion of a JSON value (as used when a
value is interpolated into an `Error` message or a `Blob` part). -/
def jsToString : JsonValue → String
  | .jnull => "null"
  | .jbool true => "true"
  | .jbool false => "false"
  | .jnum m e => decimalString m e
  | .jstr s => s
  | .jarr elems => jsToStringList elems
  | .jobj _ => "[object Object]"

/-- `Array.prototype.toString`: elements joined with commas. -/
def jsToStringList : List JsonValue → String
  | [] => ""
  | [v] => jsToString v
  | v :: rest => jsToString v ++ "," ++ jsToStringList rest

end

/-- JavaScript `x || d` on a possibly-absent property: the property's
value when present and truthy, the default otherwise (`undefined || d`
and falsy `x || d` both give `d`). -/
def orDefault (v : Option JsonValue) (d : JsonValue) : JsonValue :=
  match v with
  | some x => if truthy x then x else d
  | none => d

/-- `route.ts` lines 50–55: the success-path response body
`{ text: result.text || '', confidence: result.confidence || null,
   layout: result.layout || null, processing_time: result.processing_time || null }`. -/
def normalizeResult (result : JsObject) : JsObject :=
  [("text", orDefault (getField result "text") (.jstr "")),
   ("confidence", orDefault (getField result "confidence") .jnull),
   ("layout", orDefault (getField result "layout") .jnull),
   ("processing_time", orDefault (getField result "processing_time") .jnull)]

/-- The multipart `file` field: its `size` and MIME `type` attributes,
the only attributes the route inspects. -/
structure ReqFile where
  size : Nat
  type : String
deriving Repr, DecidableEq

/-- `route.ts` line 16: the 10 MiB size ceiling `10 * 1024 * 1024`. -/
def MAX_FILE_SIZE : Nat := 10 * 1024 * 1024

/-- The observable behaviour of the one backend `fetch` performed by the
route: a 2xx JSON body, a non-2xx status with a JSON-parseable or
unparseable body, or the fetch promise rejecting with an `Error` message. -/
inductive BackendSim where
  | success (body : JsObject)
  | httpError (status : Nat) (body : Option JsObject)
  | fetchThrow (msg : String)
deriving Repr

/-- An HTTP response produced by the route: status plus JSON body. -/
structure HttpResponse where
  status : Nat
  body : JsObject
deriving Repr

/-- `route.ts` lines 44–45: the error message thrown for a non-ok backend
response — `errorData.error || 'HTTPエラー: <status>'` where `errorData`
is the parsed body, or `{ error: 'バックエンドサーバーエラー' }` when the
body is not JSON-parseable. -/
def backendErrorMessage (status : Nat) (body : Option JsObject) : String :=
  let errorData := body.getD [("error", .jstr "バックエンドサーバーエラー")]
  match getField errorData "error" with
  | some v => if truthy v then jsToString v else "HTTPエラー: " ++ toString status
  | none => "HTTPエラー: " ++ toString status

/-- `route.ts` lines 57–66: the outer catch handler. The thrown value is
always an `Error` in the modelled paths, so the body's `error` field is
its message; `details` is `String(error)` in development and an omitted
(`undefined`) key otherwise. -/
def serverErrorResponse (dev : Bool) (msg : String) : HttpResponse :=
  { status := 500,
    body :=
      if dev then [("error", .jstr msg), ("details", .jstr ("Error: " ++ msg))]
      else [("error", .jstr msg)] }

/-- `route.ts` lines 3–68: the `POST` handler. The inbound request is
represented by its `file` field (`none` when the field is absent; the
`formData()` parse itself is assumed to succeed), the backend by a
`BackendSim`. Returns the HTTP response together with a flag recording
whether the backend `fetch` was invoked; the handler performs at most the
one forwarding call that flag records. -/
def POST (dev : Bool) («file?» : Option ReqFile) (backend : BackendSim) :
    HttpResponse × Bool :=
  match «file?» with
  | none =>
    ({ status := 400, body := [("error", .jstr "ファイルが見つかりません")] }, false)
  | some file =>
    if file.size > MAX_FILE_SIZE then
      ({ status := 400,
         body := [("error", .jstr "ファイルサイズは10MB以下にしてください")] }, false)
    else if ! strStartsWith file.type "image/" then
      ({ status := 400,
         body := [("error", .jstr "画像ファイルを選択してください")] }, false)
    else
      match backend with
      | .success result => ({ status := 200, body := normalizeResult result }, true)
      | .httpError st body => (serverErrorResponse dev (backendErrorMessage st body), true)
      | .fetchThrow msg => (serverErrorResponse dev msg, true)

/-- `page.tsx` lines 17–21: the page component's five pieces of `useState`
state. The OCR result is stored exactly as `response.json()` returned it
(`setOcrResult(result)` performs no reshaping). -/
structure UIState where
  file : Option ReqFile
  imagePreview : String
  ocrResult : Option JsObject
  isProcessing : Bool
  error : String
deriving Repr

/-- The initial idle state of the page (`useState` initialisers). -/
def initialState : UIState :=
  { file := none, imagePreview := "", ocrResult := none,
    isProcessing := false, error := "" }

/-- `page.tsx` lines 23–38: the dropzone handler. `readDataUrl` stands for
the browser's `FileReader.readAsDataURL`; the state shown is the one after
the reader's `onload` has fired on the accepted branch. The handler
performs no network access in either branch. -/
def onDrop (readDataUrl : ReqFile → String) (s : UIState)
    (acceptedFiles : List ReqFile) : UIState :=
  match acceptedFiles.head? with
  | some file =>
    if strStartsWith file.type "image/" then
      { s with file := some file, error := "", imagePreview := readDataUrl file }
    else
      { s with error := "画像ファイルを選択してください" }
  | none => { s with error := "画像ファイルを選択してください" }

/-- The observable behaviour of the page's one `fetch` in `processOCR`:
a 2xx JSON body, a non-ok response, or the fetch rejecting (`none` for a
thrown value that is not an `Error`, `some msg` for an `Error` with that
message). -/
inductive FetchOutcome where
  | ok (result : JsObject)
  | httpError
  | fetchThrow («msg?» : Option String)
deriving Repr

/-- Whether the outcome is one of the two failure paths of `processOCR`. -/
def FetchOutcome.isFailure : FetchOutcome → Bool
  | .ok _ => false
  | .httpError => true
  | .fetchThrow _ => true

/-- The error string `processOCR`'s catch block stores for a failure:
`'OCR処理に失敗しました'` for a non-ok response (the thrown `Error`'s
message), `err.message` or the generic `'OCR処理でエラーが発生しました'`
for a rejected fetch. -/
def failureMessage : FetchOutcome → String
  | .ok _ => ""
  | .httpError => "OCR処理に失敗しました"
  | .fetchThrow «msg?» => «msg?».getD "OCR処理でエラーが発生しました"

/-- `page.tsx` lines 48–74: the "process" action. Returns the state after
the handler has run to completion: an early return when no file is
selected; otherwise `isProcessing` is raised and `error` cleared, then the
`try`/`catch`/`finally` runs on the fetch's outcome. -/
def processOCR (s : UIState) (outcome : FetchOutcome) : UIState :=
  match s.file with
  | none => s
  | some _ =>
    let s1 := { s with isProcessing := true, error := "" }
    match outcome with
    | .ok result => { s1 with ocrResult := some result, isProcessing := false }
    | .httpError => { s1 with error := failureMessage .httpError, isProcessing := false }
    | .fetchThrow m => { s1 with error := failureMessage (.fetchThrow m), isProcessing := false }

/-- A `Blob` part: a string passes through verbatim, any other value is
converted with `String(...)`, and `undefined` (absent property) renders
as the string `"undefined"`. -/
def blobPartString : Option JsonValue → String
  | none => "undefined"
  | some v => jsToString v

/-- `page.tsx` lines 76–88: the "download" action. Produces the content of
the downloaded file — `new Blob([ocrResult.text], { type: 'text/plain' })`
— or nothing when no result is held (the early return). The file's name
(`ocr-result-<timestamp>.txt`) carries a clock reading and is not part of
the content. -/
def downloadResult (s : UIState) : Option String :=
  match s.ocrResult with
  | none => none
  | some r => some (blobPartString (getField r "text"))

/-- `page.tsx` lines 90–95: the "reset" action. -/
def resetAll (s : UIState) : UIState :=
  { s with file := none, imagePreview := "", ocrResult := none, error := "" }

/-! ## Theorems -/

/-- Shared helper: the route's catch handler always puts the thrown
message in the body's `error` field, with or without the development
`details` field. -/
theorem getField_serverErrorResponse (dev : Bool) (msg : String) :
    getField (serverErrorResponse dev msg).body "error" = some (.jstr msg) := by
  cases dev <;> simp [serverErrorResponse, getField]

/-- C1: For every successful backend JSON response accepted past
validation, the proxy's POST handler returns a 200 JSON object with
exactly the keys `text`, `confidence`, `layout`, `processing_time`, and
each optional key absent from the backend response is present with value
`null` rather than omitted. -/
theorem post_success_normalizes_shape (dev : Bool) (f : ReqFile) (result : JsObject)
    (hsize : f.size ≤ MAX_FILE_SIZE) (htype : strStartsWith f.type "image/" = true) :
    (POST dev (some f) (.success result)).1.status = 200 ∧
    ((POST dev (some f) (.success result)).1.body.map Prod.fst =
      ["text", "confidence", "layout", "processing_time"]) ∧
    (getField result "confidence" = none →
      getField (POST dev (some f) (.success result)).1.body "confidence" = some .jnull) ∧
    (getField result "layout" = none →
      getField (POST dev (some f) (.success result)).1.body "layout" = some .jnull) ∧
    (getField result "processing_time" = none →
      getField (POST dev (some f) (.success result)).1.body "processing_time" = some .jnull) := by
  have hs : ¬ f.size > MAX_FILE_SIZE := by omega
  refine ⟨by simp [POST, hs, htype], by simp [POST, hs, htype, normalizeResult],
    fun h => by simp [POST, hs, htype, normalizeResult, getField, orDefault, h],
    fun h => by simp [POST, hs, htype, normalizeResult, getField, orDefault, h],
    fun h => by simp [POST, hs, htype, normalizeResult, getField, orDefault, h]⟩

/-- Witness for C1 at the spec's example: backend body
`{ text: "hello", confidence: 0.87 }` for a 2 KiB PNG upload produces
`{ text: "hello", confidence: 0.87, layout: null, processing_time: null }`
with status 200. -/
theorem post_success_normalizes_shape_witness :
    ((2048 : Nat) ≤ MAX_FILE_SIZE ∧ strStartsWith "image/png" "image/" = true) ∧
    (POST false (some ⟨2048, "image/png"⟩)
      (.success [("text", .jstr "hello"), ("confidence", .jnum 87 2)])).1.status = 200 ∧
    (POST false (some ⟨2048, "image/png"⟩)
      (.success [("text", .jstr "hello"), ("confidence", .jnum 87 2)])).1.body =
      [("text", .jstr "hello"), ("confidence", .jnum 87 2), ("layout", .jnull),
       ("processing_time", .jnull)] :=
  ⟨⟨by decide, by decide⟩,
   (post_success_normalizes_shape false ⟨2048, "image/png"⟩
      [("text", .jstr "hello"), ("confidence", .jnum 87 2)] (by decide) (by decide)).1,
   by rfl⟩

/-- C2 counterexample: a `confidence` field present with value `0` is not
passed through unchanged — the proxy's `||` defaulting replaces it with
`null`. -/
theorem post_falsy_confidence_dropped_cex :
    getField (POST false (some ⟨2048, "image/png"⟩)
        (.success [("text", .jstr "x"), ("confidence", .jnum 0 0)])).1.body "confidence"
      = some .jnull ∧ JsonValue.jnull ≠ JsonValue.jnum 0 0 :=
  ⟨by rfl, fun h => JsonValue.noConfusion h⟩

/-- C2 (amended): a field present in the backend response with a truthy
value is passed through unchanged; a field that is absent — or present
with a JavaScript-falsy value such as `0`, `""`, `false` or `null` — is
replaced by the default (`""` for `text`, `null` for the optional
fields). -/
theorem post_passthrough_truthy (dev : Bool) (f : ReqFile) (result : JsObject)
    (hsize : f.size ≤ MAX_FILE_SIZE) (htype : strStartsWith f.type "image/" = true) :
    (∀ v, getField result "text" = some v → truthy v = true →
      getField (POST dev (some f) (.success result)).1.body "text" = some v) ∧
    (∀ v, getField result "confidence" = some v → truthy v = true →
      getField (POST dev (some f) (.success result)).1.body "confidence" = some v) ∧
    (∀ v, getField result "layout" = some v → truthy v = true →
      getField (POST dev (some f) (.success result)).1.body "layout" = some v) ∧
    (∀ v, getField result "processing_time" = some v → truthy v = true →
      getField (POST dev (some f) (.success result)).1.body "processing_time" = some v) ∧
    (∀ v, getField result "confidence" = some v → truthy v = false →
      getField (POST dev (some f) (.success result)).1.body "confidence" = some .jnull) ∧
    (∀ v, getField result "text" = some v → truthy v = false →
      getField (POST dev (some f) (.success result)).1.body "text" = some (.jstr "")) := by
  have hs : ¬ f.size > MAX_FILE_SIZE := by omega
  refine ⟨fun v hv ht => ?_, fun v hv ht => ?_, fun v hv ht => ?_, fun v hv ht => ?_,
    fun v hv ht => ?_, fun v hv ht => ?_⟩ <;>
    simp [POST, hs, htype, normalizeResult, getField, orDefault, hv, ht]

/-- Witness for C2's amended statement: `confidence: 0.87` (truthy) is
forwarded unchanged. -/
theorem post_passthrough_truthy_witness :
    ((2048 : Nat) ≤ MAX_FILE_SIZE ∧ strStartsWith "image/png" "image/" = true ∧
      truthy (.jnum 87 2) = true) ∧
    getField (POST false (some ⟨2048, "image/png"⟩)
        (.success [("text", .jstr "hello"), ("confidence", .jnum 87 2)])).1.body "confidence"
      = some (.jnum 87 2) :=
  ⟨⟨by decide, by decide, by decide⟩,
   (post_passthrough_truthy false ⟨2048, "image/png"⟩
      [("text", .jstr "hello"), ("confidence", .jnum 87 2)]
      (by decide) (by decide)).2.1 (.jnum 87 2) (by rfl) (by decide)⟩

/-- C3: a file of exactly 10 MiB passes the size check — with an image
MIME type the request is forwarded, whatever the backend does — while a
file of 10 MiB + 1 bytes is rejected with a 400 error object and the
backend fetch is never invoked. -/
theorem post_size_boundary (dev : Bool) (backend : BackendSim) (t : String)
    (htype : strStartsWith t "image/" = true) :
    (POST dev (some ⟨10 * 1024 * 1024, t⟩) backend).2 = true ∧
    (POST dev (some ⟨10 * 1024 * 1024 + 1, t⟩) backend).1.status = 400 ∧
    (getField (POST dev (some ⟨10 * 1024 * 1024 + 1, t⟩) backend).1.body "error" =
      some (.jstr "ファイルサイズは10MB以下にしてください")) ∧
    "ファイルサイズは10MB以下にしてください" ≠ "" ∧
    (POST dev (some ⟨10 * 1024 * 1024 + 1, t⟩) backend).2 = false := by
  refine ⟨?_, ?_, ?_, by decide, ?_⟩
  · cases backend <;> simp [POST, MAX_FILE_SIZE, htype]
  · simp only [POST, MAX_FILE_SIZE]; norm_num
  · simp only [POST, MAX_FILE_SIZE]; norm_num; simp [getField]
  · simp only [POST, MAX_FILE_SIZE]; norm_num

/-- Witness for C3 with a PNG MIME type and a trivial backend. -/
theorem post_size_boundary_witness :
    (strStartsWith "image/png" "image/" = true) ∧
    (POST false (some ⟨10 * 1024 * 1024, "image/png"⟩) (.success [])).2 = true ∧
    (POST false (some ⟨10 * 1024 * 1024 + 1, "image/png"⟩) (.success [])).1.status = 400 ∧
    (POST false (some ⟨10 * 1024 * 1024 + 1, "image/png"⟩) (.success [])).2 = false :=
  ⟨by decide,
   (post_size_boundary false (.success []) "image/png" (by decide)).1,
   (post_size_boundary false (.success []) "image/png" (by decide)).2.1,
   (post_size_boundary false (.success []) "image/png" (by decide)).2.2.2.2⟩

/-- C4: each of the three validation failures — absent `file` field,
oversized file, non-`image/` MIME type — yields a 400 with a non-empty
error string and no backend call; a request passing all three checks is
forwarded (the handler performs exactly the one forwarding call that the
returned flag records). -/
theorem post_validation_gate (dev : Bool) («file?» : Option ReqFile) (backend : BackendSim) :
    («file?» = none →
      (POST dev «file?» backend).1.status = 400 ∧
      (∃ m, getField (POST dev «file?» backend).1.body "error" = some (.jstr m) ∧ m ≠ "") ∧
      (POST dev «file?» backend).2 = false) ∧
    (∀ f, «file?» = some f → f.size > MAX_FILE_SIZE →
      (POST dev «file?» backend).1.status = 400 ∧
      (∃ m, getField (POST dev «file?» backend).1.body "error" = some (.jstr m) ∧ m ≠ "") ∧
      (POST dev «file?» backend).2 = false) ∧
    (∀ f, «file?» = some f → strStartsWith f.type "image/" = false →
      (POST dev «file?» backend).1.status = 400 ∧
      (∃ m, getField (POST dev «file?» backend).1.body "error" = some (.jstr m) ∧ m ≠ "") ∧
      (POST dev «file?» backend).2 = false) ∧
    (∀ f, «file?» = some f → f.size ≤ MAX_FILE_SIZE → strStartsWith f.type "image/" = true →
      (POST dev «file?» backend).2 = true) := by
  refine ⟨fun h => ?_, fun f hf hsize => ?_, fun f hf htype => ?_, fun f hf hsize htype => ?_⟩
  · subst h
    exact ⟨rfl, ⟨"ファイルが見つかりません", by simp [getField], by decide⟩, rfl⟩
  · subst hf
    have e : POST dev (some f) backend =
        ({ status := 400,
           body := [("error", .jstr "ファイルサイズは10MB以下にしてください")] }, false) := by
      simp only [POST, if_pos hsize]
    rw [e]
    exact ⟨rfl, ⟨"ファイルサイズは10MB以下にしてください", by simp [getField], by decide⟩, rfl⟩
  · subst hf
    by_cases hsize : f.size > MAX_FILE_SIZE
    · have e : POST dev (some f) backend =
          ({ status := 400,
             body := [("error", .jstr "ファイルサイズは10MB以下にしてください")] }, false) := by
        simp only [POST, if_pos hsize]
      rw [e]
      exact ⟨rfl, ⟨"ファイルサイズは10MB以下にしてください", by simp [getField], by decide⟩, rfl⟩
    · have e : POST dev (some f) backend =
          ({ status := 400,
             body := [("error", .jstr "画像ファイルを選択してください")] }, false) := by
        simp [POST, hsize, htype]
      rw [e]
      exact ⟨rfl, ⟨"画像ファイルを選択してください", by simp [getField], by decide⟩, rfl⟩
  · subst hf
    have hs : ¬ f.size > MAX_FILE_SIZE := by omega
    cases backend <;> simp [POST, hs, htype]

/-- Witness for C4: the three rejection branches and the acceptance
branch at concrete requests. -/
theorem post_validation_gate_witness :
    (POST false none (.success [])).2 = false ∧
    (POST false (some ⟨10485761, "image/png"⟩) (.success [])).1.status = 400 ∧
    (POST false (some ⟨4, "text/plain"⟩) (.success [])).2 = false ∧
    (POST false (some ⟨4, "image/png"⟩) (.success [])).2 = true :=
  ⟨((post_validation_gate false none (.success [])).1 rfl).2.2,
   ((post_validation_gate false (some ⟨10485761, "image/png"⟩) (.success [])).2.1
      ⟨10485761, "image/png"⟩ rfl (by decide)).1,
   ((post_validation_gate false (some ⟨4, "text/plain"⟩) (.success [])).2.2.1
      ⟨4, "text/plain"⟩ rfl (by decide)).2.2,
   (post_validation_gate false (some ⟨4, "image/png"⟩) (.success [])).2.2.2
      ⟨4, "image/png"⟩ rfl (by decide) (by decide)⟩

/-- C5: a non-2xx backend response yields a proxy 500 whose `error` field
is the backend body's error string when that body is JSON-parseable with
a non-empty `error` field, and a generic fallback message otherwise (the
fixed unparseable-body message, or `HTTPエラー: <status>` when the parsed
body has no error string). -/
theorem post_backend_error_propagation (dev : Bool) (f : ReqFile) (st : Nat)
    («body?» : Option JsObject)
    (hsize : f.size ≤ MAX_FILE_SIZE) (htype : strStartsWith f.type "image/" = true) :
    (POST dev (some f) (.httpError st «body?»)).1.status = 500 ∧
    (∀ b m, «body?» = some b → getField b "error" = some (.jstr m) → m ≠ "" →
      getField (POST dev (some f) (.httpError st «body?»)).1.body "error" =
        some (.jstr m)) ∧
    («body?» = none →
      getField (POST dev (some f) (.httpError st «body?»)).1.body "error" =
        some (.jstr "バックエンドサーバーエラー")) ∧
    (∀ b, «body?» = some b → getField b "error" = none →
      getField (POST dev (some f) (.httpError st «body?»)).1.body "error" =
        some (.jstr ("HTTPエラー: " ++ toString st))) ∧
    (∀ b, «body?» = some b → getField b "error" = some (.jstr "") →
      getField (POST dev (some f) (.httpError st «body?»)).1.body "error" =
        some (.jstr ("HTTPエラー: " ++ toString st))) := by
  have hs : ¬ f.size > MAX_FILE_SIZE := by omega
  have e : POST dev (some f) (.httpError st «body?») =
      (serverErrorResponse dev (backendErrorMessage st «body?»), true) := by
    simp [POST, hs, htype]
  rw [e]
  refine ⟨by cases dev <;> rfl, fun b m hb herr hm => ?_, fun hb => ?_,
    fun b hb herr => ?_, fun b hb herr => ?_⟩
  · subst hb
    rw [getField_serverErrorResponse]
    simp [backendErrorMessage, herr, truthy, hm, jsToString]
  · subst hb
    rw [getField_serverErrorResponse]
    simp [backendErrorMessage, getField, truthy, jsToString]
  · subst hb
    rw [getField_serverErrorResponse]
    simp [backendErrorMessage, herr]
  · subst hb
    rw [getField_serverErrorResponse]
    simp [backendErrorMessage, herr, truthy]

/-- Witness for C5 at the spec's example: a backend 500 with body
`{ error: "GPU busy" }` becomes a proxy 500 whose error message is
`"GPU busy"`. -/
theorem post_backend_error_propagation_witness :
    ((2048 : Nat) ≤ MAX_FILE_SIZE ∧ strStartsWith "image/png" "image/" = true ∧
      ("GPU busy" : String) ≠ "") ∧
    (POST false (some ⟨2048, "image/png"⟩)
      (.httpError 500 (some [("error", .jstr "GPU busy")]))).1.status = 500 ∧
    getField (POST false (some ⟨2048, "image/png"⟩)
        (.httpError 500 (some [("error", .jstr "GPU busy")]))).1.body "error" =
      some (.jstr "GPU busy") :=
  ⟨⟨by decide, by decide, by decide⟩,
   (post_backend_error_propagation false ⟨2048, "image/png"⟩ 500
      (some [("error", .jstr "GPU busy")]) (by decide) (by decide)).1,
   (post_backend_error_propagation false ⟨2048, "image/png"⟩ 500
      (some [("error", .jstr "GPU busy")]) (by decide) (by decide)).2.1
      [("error", .jstr "GPU busy")] "GPU busy" rfl (by rfl) (by decide)⟩

/-- C6: invoking the reset action from any state sets the selected file
to `null`, the preview to the empty string, the OCR result to `null` and
the error message to the empty string — the initial idle values of those
four pieces of state. -/
theorem resetAll_clears_state (s : UIState) :
    (resetAll s).file = initialState.file ∧
    (resetAll s).imagePreview = initialState.imagePreview ∧
    (resetAll s).ocrResult = initialState.ocrResult ∧
    (resetAll s).error = initialState.error :=
  ⟨rfl, rfl, rfl, rfl⟩

/-- Witness for C6 at a fully populated busy state. -/
theorem resetAll_clears_state_witness :
    (resetAll ⟨some ⟨2048, "image/png"⟩, "data:image/png;base64,AAAA",
        some [("text", .jstr "hello")], true, "old error"⟩).file = none ∧
    (resetAll ⟨some ⟨2048, "image/png"⟩, "data:image/png;base64,AAAA",
        some [("text", .jstr "hello")], true, "old error"⟩).imagePreview = "" ∧
    (resetAll ⟨some ⟨2048, "image/png"⟩, "data:image/png;base64,AAAA",
        some [("text", .jstr "hello")], true, "old error"⟩).ocrResult = none ∧
    (resetAll ⟨some ⟨2048, "image/png"⟩, "data:image/png;base64,AAAA",
        some [("text", .jstr "hello")], true, "old error"⟩).error = "" :=
  resetAll_clears_state ⟨some ⟨2048, "image/png"⟩, "data:image/png;base64,AAAA",
    some [("text", .jstr "hello")], true, "old error"⟩

/-- C7: for every non-null OCR result whose `text` field is a string, the
download action produces a file whose entire content is that string
verbatim — no other result field enters the content. -/
theorem downloadResult_text_verbatim (s : UIState) (r : JsObject) (t : String)
    (hres : s.ocrResult = some r) (htext : getField r "text" = some (.jstr t)) :
    downloadResult s = some t := by
  simp [downloadResult, hres, blobPartString, htext, jsToString]

/-- Witness for C7: a stored result with text, confidence, processing
time and model name downloads as exactly the text. -/
theorem downloadResult_text_verbatim_witness :
    downloadResult ⟨none, "",
        some [("text", .jstr "hello world"), ("confidence", .jnum 87 2),
              ("processing_time", .jnum 31 1), ("model_used", .jstr "GOT-OCR2_0")],
        false, ""⟩ = some "hello world" :=
  downloadResult_text_verbatim _ _ "hello world" rfl (by simp [getField])

/-- C8: a drop of an empty selection, or of a file whose MIME type does
not start with `image/`, stores the fixed non-empty error message and
leaves the selected file, the preview and the stored result exactly as
they were (so a previously unset file and preview stay unset); with no
file selected the process action stays a no-op, and the handler performs
no network access in any branch. -/
theorem onDrop_rejects_non_image (readDataUrl : ReqFile → String) (s : UIState)
    (files : List ReqFile)
    (hbad : files = [] ∨
      ∃ f rest, files = f :: rest ∧ strStartsWith f.type "image/" = false) :
    (onDrop readDataUrl s files).error = "画像ファイルを選択してください" ∧
    "画像ファイルを選択してください" ≠ "" ∧
    (onDrop readDataUrl s files).file = s.file ∧
    (onDrop readDataUrl s files).imagePreview = s.imagePreview ∧
    (onDrop readDataUrl s files).ocrResult = s.ocrResult ∧
    (s.file = none → ∀ outcome,
      processOCR (onDrop readDataUrl s files) outcome = onDrop readDataUrl s files) := by
  have e : onDrop readDataUrl s files = { s with error := "画像ファイルを選択してください" } := by
    rcases hbad with h | ⟨f, rest, hcons, htype⟩
    · subst h; rfl
    · subst hcons; simp [onDrop, htype]
  rw [e]
  exact ⟨rfl, by decide, rfl, rfl, rfl, fun hf _ => by simp [processOCR, hf]⟩

/-- Witness for C8 at the initial state with a PDF selection: the error
is set and file and preview remain unset. -/
theorem onDrop_rejects_non_image_witness :
    (strStartsWith "application/pdf" "image/" = false) ∧
    (onDrop (fun _ => "data:...") initialState [⟨2048, "application/pdf"⟩]).error =
      "画像ファイルを選択してください" ∧
    (onDrop (fun _ => "data:...") initialState [⟨2048, "application/pdf"⟩]).file = none ∧
    (onDrop (fun _ => "data:...") initialState [⟨2048, "application/pdf"⟩]).imagePreview = "" :=
  ⟨by decide,
   (onDrop_rejects_non_image (fun _ => "data:...") initialState [⟨2048, "application/pdf"⟩]
      (Or.inr ⟨⟨2048, "application/pdf"⟩, [], rfl, by decide⟩)).1,
   (onDrop_rejects_non_image (fun _ => "data:...") initialState [⟨2048, "application/pdf"⟩]
      (Or.inr ⟨⟨2048, "application/pdf"⟩, [], rfl, by decide⟩)).2.2.1,
   (onDrop_rejects_non_image (fun _ => "data:...") initialState [⟨2048, "application/pdf"⟩]
      (Or.inr ⟨⟨2048, "application/pdf"⟩, [], rfl, by decide⟩)).2.2.2.1⟩

/-- C9: the proxy's 200 response never contains a `model_used` key — the
normalization's fixed key list drops it even when the backend response
includes one. -/
theorem post_success_drops_model_used (dev : Bool) (f : ReqFile) (result : JsObject)
    (hsize : f.size ≤ MAX_FILE_SIZE) (htype : strStartsWith f.type "image/" = true) :
    "model_used" ∉ ((POST dev (some f) (.success result)).1.body.map Prod.fst) := by
  have hs : ¬ f.size > MAX_FILE_SIZE := by omega
  simp [POST, hs, htype, normalizeResult]

/-- Witness for C9: a backend response carrying `model_used` yields a
proxy body without that key. -/
theorem post_success_drops_model_used_witness :
    ((2048 : Nat) ≤ MAX_FILE_SIZE ∧ strStartsWith "image/png" "image/" = true) ∧
    "model_used" ∉ ((POST false (some ⟨2048, "image/png"⟩)
      (.success [("text", .jstr "hi"), ("model_used", .jstr "GOT-OCR2_0")])).1.body.map
        Prod.fst) :=
  ⟨⟨by decide, by decide⟩,
   post_success_drops_model_used false ⟨2048, "image/png"⟩
     [("text", .jstr "hi"), ("model_used", .jstr "GOT-OCR2_0")] (by decide) (by decide)⟩

/-- C10: when the process action fails (non-ok response or a thrown
fetch), the handler stores the failure's error message and clears the
busy flag, while the previously stored OCR result, selected file and
preview are left unchanged. -/
theorem processOCR_failure_keeps_stale_state (s : UIState) (f : ReqFile)
    (outcome : FetchOutcome)
    (hfile : s.file = some f) (hfail : outcome.isFailure = true) :
    (processOCR s outcome).error = failureMessage outcome ∧
    (processOCR s outcome).isProcessing = false ∧
    (processOCR s outcome).ocrResult = s.ocrResult ∧
    (processOCR s outcome).file = s.file ∧
    (processOCR s outcome).imagePreview = s.imagePreview := by
  cases outcome with
  | ok r => simp [FetchOutcome.isFailure] at hfail
  | httpError => simp [processOCR, hfile]
  | fetchThrow m => simp [processOCR, hfile]

/-- Witness for C10: after an earlier success, a failing second run keeps
the stale result and preview next to the new error. -/
theorem processOCR_failure_keeps_stale_state_witness :
    ((⟨some ⟨2048, "image/png"⟩, "data:image/png;base64,AAAA",
        some [("text", .jstr "old")], false, ""⟩ : UIState).file = some ⟨2048, "image/png"⟩ ∧
      FetchOutcome.httpError.isFailure = true) ∧
    (processOCR ⟨some ⟨2048, "image/png"⟩, "data:image/png;base64,AAAA",
        some [("text", .jstr "old")], false, ""⟩ .httpError).error =
      failureMessage .httpError ∧
    (processOCR ⟨some ⟨2048, "image/png"⟩, "data:image/png;base64,AAAA",
        some [("text", .jstr "old")], false, ""⟩ .httpError).ocrResult =
      some [("text", .jstr "old")] :=
  ⟨⟨rfl, rfl⟩,
   (processOCR_failure_keeps_stale_state _ ⟨2048, "image/png"⟩ .httpError rfl rfl).1,
   (processOCR_failure_keeps_stale_state _ ⟨2048, "image/png"⟩ .httpError rfl rfl).2.2.1⟩

end OcrApp
